import Mathlib

/-!
Shallow embedding of the HealthBridge AI message-processing pipeline:
`utils/translation.py`, `utils/whatsapp.py`, `backend/models/models.py`
and `agents/coordinator.py`.  External capabilities (the translation
backend, the language detector, the LLM intent classifier, the Twilio
client) are modelled as oracles carried in an environment record; the
database is an explicit value threaded through the functions.  Python
string operations used by the code (`lower`, `strip`, `in`,
`startswith`) are re-implemented structurally over `List Char` so that
every definition evaluates inside the kernel.
-/

namespace HealthBridge

/-- Python `str.lower` on one character (ASCII range, which is all the
code's keyword patterns use). -/
def charLower (c : Char) : Char :=
  if 'A' ≤ c ∧ c ≤ 'Z' then Char.ofNat (c.toNat + 32) else c

/-- Python `str.lower`. -/
def pyLower (s : String) : String :=
  String.mk (s.data.map charLower)

/-- Whitespace as Python `str.strip` removes it. -/
def isSpaceChar (c : Char) : Bool :=
  c = ' ' || c = '\t' || c = '\n' || c = '\r'

/-- Python `str.strip`. -/
def pyStrip (s : String) : String :=
  String.mk (((s.data.dropWhile isSpaceChar).reverse.dropWhile isSpaceChar).reverse)

/-- Does the second list start with the first? -/
def startsWithChars : List Char → List Char → Bool
  | [], _ => true
  | _ :: _, [] => false
  | a :: as, b :: bs => a = b && startsWithChars as bs

/-- Does the second list contain the first as a contiguous run? -/
def hasSubChars (pat : List Char) : List Char → Bool
  | [] => startsWithChars pat []
  | b :: bs => startsWithChars pat (b :: bs) || hasSubChars pat bs

/-- Python `pat in s` (substring containment). -/
def strContains (s pat : String) : Bool :=
  hasSubChars pat.data s.data

/-- Python `s.startswith(pat)`. -/
def strStartsWith (s pat : String) : Bool :=
  startsWithChars pat.data s.data

/-! ## Data model (`backend/models/models.py`) -/

/-- Row of the `patients` table (the columns the pipeline touches;
`phone_number` carries a uniqueness constraint in the schema). -/
structure Patient where
  id : Nat
  phone_number : String
  name : Option String
  language : String
deriving DecidableEq, Repr

/-- Row of the `messages` table (the columns the pipeline writes). -/
structure Message where
  id : Nat
  patient_id : Option Nat
  session_id : String
  sender : String
  content : String
  translated_content : Option String
  language : Option String
deriving DecidableEq, Repr

/-- The database state seen by the coordinator: the two tables it
touches, plus the id counters the primary-key columns advance. -/
structure DB where
  patients : List Patient
  messages : List Message
  nextPatientId : Nat
  nextMessageId : Nat
deriving DecidableEq, Repr

/-! ## `utils/translation.py` -/

/-- Outcome of one call to the external `GoogleTranslator.translate`:
a returned string (possibly empty, which Python treats as falsy), a
`TranslationNotFound` exception, or any other exception. -/
inductive TransOutcome where
  | ok (translated_text : String)
  | raisesNotFound (msg : String)
  | raises (msg : String)
deriving DecidableEq, Repr

/-- A Python value passed as `text`: a string, or something that fails
`isinstance(text, str)`. -/
inductive PyText where
  | str (s : String)
  | nonStr
deriving DecidableEq, Repr

/-- The dict returned by `translate_text`: each key is `none` when the
dict does not carry it. -/
structure TransDict where
  translated_text : Option String := none
  source_language : Option String := none
  dest_language : Option String := none
  error : Option String := none
deriving DecidableEq, Repr

/-- `translate_text(text, dest_lang, source_lang)` from
`utils/translation.py`, with the `GoogleTranslator` backend abstracted
as an oracle from (text, dest_lang) to an outcome. -/
def translate_text (backend : String → String → TransOutcome)
    (text : PyText) (dest_lang source_lang : String) : TransDict :=
  match text with
  | PyText.nonStr => { error := some "Invalid input text for translation." }
  | PyText.str s =>
    if s = "" then { error := some "Invalid input text for translation." }
    else
      match backend s dest_lang with
      | TransOutcome.ok translated_text =>
        if translated_text ≠ "" then
          { translated_text := some translated_text,
            source_language :=
              some (if source_lang ≠ "auto" then source_lang else "auto detected"),
            dest_language := some dest_lang,
            error := none }
        else
          { error := some "Translation returned an empty result." }
      | TransOutcome.raisesNotFound m =>
        { error := some ("Could not translate the text. It might be too short or in an unsupported language. Details: " ++ m) }
      | TransOutcome.raises m =>
        { error := some m }

/-- Modelled from the spec: `detect_language` is imported by
`agents/coordinator.py` from `utils/translation.py` but is absent
there (the file's own comment says the function has been removed), so
its result shape is taken from spec section 4.5:
`detect(text) -> {language, error?}` — a dict whose keys may each be
missing. -/
structure DetectDict where
  language : Option String := none
  error : Option String := none
deriving DecidableEq, Repr

/-! ## `utils/whatsapp.py` -/

/-- Outcome of one call to the external `client.messages.create`. -/
inductive SendOutcome where
  | ok (sid : String)
  | raises (msg : String)
deriving DecidableEq, Repr

/-- The module-level Twilio state of `utils/whatsapp.py`: whether the
client was initialized, and the behaviour of `client.messages.create`
keyed by (to, body). -/
structure TwilioEnv where
  clientInitialized : Bool
  create : String → String → SendOutcome

/-- `send_whatsapp_message(to_number, message_body)` from
`utils/whatsapp.py`: always returns a string — a SID on success, an
error string otherwise. -/
def send_whatsapp_message (tw : TwilioEnv) (to_number message_body : String) : String :=
  if tw.clientInitialized = false then
    "Twilio client is not initialized. Cannot send message."
  else
    let to2 := if strStartsWith to_number "whatsapp:" then to_number
               else "whatsapp:" ++ to_number
    match tw.create to2 message_body with
    | SendOutcome.ok sid => sid
    | SendOutcome.raises e => "Error: " ++ e

/-! ## `agents/coordinator.py` -/

/-- Outcome of one call to the external `llm_chain.run`. -/
inductive LLMOutcome where
  | ok (response : String)
  | raises (msg : String)
deriving DecidableEq, Repr

/-- The external collaborators of one `CoordinatorAgent`:
`detect_language`, the translation backend, the LLM chain (`none`
models an unconfigured API key), and the Twilio module state. -/
structure Env where
  detect : String → DetectDict
  backend : String → String → TransOutcome
  llm_chain : Option (String → LLMOutcome)
  twilio : TwilioEnv

/-- `self.db.query(models.Patient).filter(phone_number == ...).first()`. -/
def findPatient (db : DB) (phone_number : String) : Option Patient :=
  db.patients.find? (fun p => p.phone_number == phone_number)

/-- `CoordinatorAgent.get_or_create_patient`.  The update branch
rewrites the row whose `phone_number` matches (the schema declares
`phone_number` unique, so at most one row matches). -/
def get_or_create_patient (db : DB) (phone_number language : String) : Patient × DB :=
  match findPatient db phone_number with
  | none =>
    let patient : Patient :=
      { id := db.nextPatientId, phone_number := phone_number,
        name := none, language := language }
    (patient,
     { db with patients := db.patients ++ [patient],
               nextPatientId := db.nextPatientId + 1 })
  | some patient =>
    if patient.language ≠ language then
      ({ patient with language := language },
       { db with patients :=
          db.patients.map (fun q =>
            if q.phone_number == phone_number then { q with language := language }
            else q) })
    else (patient, db)

/-- `CoordinatorAgent.classify_intent`: keyword fallback when the LLM
chain is unconfigured; otherwise the LLM response stripped and
lowercased, with any exception collapsed to `"unclear"`. -/
def classify_intent (llm_chain : Option (String → LLMOutcome)) (message : String) : String :=
  match llm_chain with
  | none =>
    if strContains (pyLower message) "book" || strContains (pyLower message) "appointment" then
      "book_appointment"
    else if strContains (pyLower message) "hello" || strContains (pyLower message) "habari" then
      "greeting"
    else "unclear"
  | some run =>
    match run message with
    | LLMOutcome.ok response => pyLower (pyStrip response)
    | LLMOutcome.raises _ => "unclear"

/-- `CoordinatorAgent.log_message`: builds the `Message` row and
appends it (the row is also returned, mirroring the transcript-log
contract `append(...) -> Message`). -/
def log_message (db : DB) (patient_id : Nat) (session_id sender content : String)
    (translated_content : Option String) (lang : Option String) : Message × DB :=
  let msg : Message :=
    { id := db.nextMessageId, patient_id := some patient_id,
      session_id := session_id, sender := sender, content := content,
      translated_content := translated_content, language := lang }
  (msg, { db with messages := db.messages ++ [msg],
                  nextMessageId := db.nextMessageId + 1 })

/-- Step 1 of `process_message`: `lang_detection.get("language", "en")`. -/
def detected_lang (env : Env) (incoming_msg : String) : String :=
  ((env.detect incoming_msg).language).getD "en"

/-- Step 1 of `process_message`: the text used for classification —
the inbound translation to English when detection reports a
non-English language without error and the translation itself does
not error, the original text otherwise.  (`translate_text` always
carries `translated_text` when `error` is absent, see
`translate_text_error_none_has_text` below, so the `getD` default is
never taken.) -/
def processing_text (env : Env) (incoming_msg : String) : String :=
  let lang_detection := env.detect incoming_msg
  let source_lang := lang_detection.language.getD "en"
  if source_lang ≠ "en" ∧ lang_detection.error = none then
    let translation := translate_text env.backend (PyText.str incoming_msg) "en" "auto"
    if translation.error = none then translation.translated_text.getD incoming_msg
    else incoming_msg
  else incoming_msg

/-- Step 5 of `process_message`: the canonical-language (English)
response template keyed by intent. -/
def response_text_en (intent : String) : String :=
  if intent == "greeting" then
    "Hello! Welcome to HealthBridge AI. How can I help you today? You can ask to book an appointment, or ask a health-related question."
  else if intent == "book_appointment" then
    "I can help with that. To book an appointment, I need to know the reason for your visit and your preferred date and time."
  else if intent == "unclear" then
    "I'm sorry, I didn't understand that. Could you please rephrase? You can ask to book an appointment or ask a health question."
  else
    "Intent identified: " ++ intent ++ ". The '" ++ intent ++ "' agent will assist you shortly."

/-- Step 4 of `process_message`: the intent of the turn. -/
def turn_intent (env : Env) (incoming_msg : String) : String :=
  classify_intent env.llm_chain (processing_text env incoming_msg)

/-- Step 6 of `process_message`: the outbound text — the template
re-localized to the detected language when it differs from English,
falling back to the English template when that translation errors. -/
def turn_response (env : Env) (incoming_msg : String) : String :=
  let source_lang := detected_lang env incoming_msg
  let resp_en := response_text_en (turn_intent env incoming_msg)
  if source_lang ≠ "en" then
    let translation_back := translate_text env.backend (PyText.str resp_en) source_lang "auto"
    if translation_back.error = none then translation_back.translated_text.getD resp_en
    else resp_en
  else resp_en

/-- The dict returned by `process_message`. -/
structure TurnResult where
  status : String
  intent : String
  response : String
deriving DecidableEq, Repr

/-- The observable calls `process_message` makes, in execution order:
transcript appends, the classification call, the dispatch call. -/
inductive Event where
  | logAppend (m : Message)
  | classifyCall (text : String)
  | sendCall (to_number body : String)
deriving DecidableEq, Repr

/-- `CoordinatorAgent.process_message(incoming_msg, patient_phone)`:
one full turn.  Returns the turn result, the final database, and the
trace of observable calls in the order the source performs them
(inbound append, classification, dispatch, outbound append). -/
def process_message (env : Env) (db : DB) (incoming_msg patient_phone : String) :
    TurnResult × DB × List Event :=
  let source_lang := detected_lang env incoming_msg
  let message_for_processing := processing_text env incoming_msg
  let pdb := get_or_create_patient db patient_phone source_lang
  let inb := log_message pdb.2 pdb.1.id patient_phone "patient" incoming_msg
    (if source_lang ≠ "en" then some message_for_processing else none)
    (some source_lang)
  let intent := turn_intent env incoming_msg
  let final_response := turn_response env incoming_msg
  let _sid := send_whatsapp_message env.twilio patient_phone final_response
  let outb := log_message inb.2 pdb.1.id patient_phone "coordinator" final_response
    (if source_lang ≠ "en" then some (response_text_en intent) else none)
    (some source_lang)
  ({ status := "processed", intent := intent, response := final_response },
   outb.2,
   [Event.logAppend inb.1, Event.classifyCall message_for_processing,
    Event.sendCall patient_phone final_response, Event.logAppend outb.1])

/-- The closed intent vocabulary of the prompt in
`agents/coordinator.py`. -/
def intent_labels : List String :=
  ["book_appointment", "reschedule_appointment", "cancel_appointment",
   "ask_question", "greeting", "affirmative", "negative", "unclear"]

/-! ## Concrete instances used to evaluate the definitions -/

/-- A fresh database. -/
def emptyDB : DB :=
  { patients := [], messages := [], nextPatientId := 1, nextMessageId := 1 }

/-- An environment where detection reports Swahili but every
translation call and every dispatch call fails, and the LLM is
unconfigured. -/
def swFailEnv : Env :=
  { detect := fun _ => { language := some "sw", error := none },
    backend := fun _ _ => TransOutcome.raises "service unavailable",
    llm_chain := none,
    twilio := { clientInitialized := false,
                create := fun _ _ => SendOutcome.raises "no client" } }

/-- An environment where every language-service call errors (detection
returns an error dict with no `language` key, translation raises). -/
def allErrEnv : Env :=
  { detect := fun _ => { language := none, error := some "detection failed" },
    backend := fun _ _ => TransOutcome.raises "translation failed",
    llm_chain := none,
    twilio := { clientInitialized := false,
                create := fun _ _ => SendOutcome.raises "no client" } }

/-- An environment whose detector reports a language chosen by the
message text: Swahili for `"moja"`, French for anything else. -/
def driftEnv : Env :=
  { detect := fun m =>
      { language := some (if m == "moja" then "sw" else "fr"), error := none },
    backend := fun _ _ => TransOutcome.raises "service unavailable",
    llm_chain := none,
    twilio := { clientInitialized := false,
                create := fun _ _ => SendOutcome.raises "no client" } }

/-- A database already holding one patient with stored language `"sw"`. -/
def swPatientDB : DB :=
  { patients := [{ id := 1, phone_number := "+254700000001",
                   name := none, language := "sw" }],
    messages := [], nextPatientId := 2, nextMessageId := 1 }

/-! ## Helper lemmas -/

theorem string_append_data (s t : String) : (s ++ t).data = s.data ++ t.data := by
  cases s
  cases t
  rfl

theorem response_text_en_ne_empty (intent : String) : response_text_en intent ≠ "" := by
  unfold response_text_en
  split
  · decide
  split
  · decide
  split
  · decide
  intro h
  have hd := congrArg String.data h
  rw [string_append_data] at hd
  exact List.append_ne_nil_of_right_ne_nil _ (by decide) hd

theorem translate_text_error_none_has_text (backend : String → String → TransOutcome)
    (text : PyText) (dest_lang source_lang : String)
    (h : (translate_text backend text dest_lang source_lang).error = none) :
    ∃ t, (translate_text backend text dest_lang source_lang).translated_text = some t ∧ t ≠ "" := by
  unfold translate_text at h ⊢
  cases text with
  | nonStr => simp at h
  | str s =>
    by_cases hs : s = ""
    · simp [hs] at h
    · simp only [if_neg hs] at h ⊢
      cases hb : backend s dest_lang with
      | ok t =>
        simp only [hb] at h ⊢
        by_cases ht : t ≠ ""
        · simp only [if_pos ht]
          exact ⟨t, rfl, ht⟩
        · simp [ht] at h
      | raisesNotFound m => simp [hb] at h
      | raises m => simp [hb] at h

theorem translate_text_error_of_raising (backend : String → String → TransOutcome)
    (hraise : ∀ t d, ∃ m, backend t d = TransOutcome.raises m)
    (t dest source : String) :
    (translate_text backend (PyText.str t) dest source).error.isSome := by
  obtain ⟨m, hm⟩ := hraise t dest
  unfold translate_text
  by_cases ht : t = ""
  · simp [ht]
  · simp [ht, hm]

theorem find?_append_of_none {α : Type} (pred : α → Bool) {l1 : List α} (l2 : List α)
    (h : l1.find? pred = none) : (l1 ++ l2).find? pred = l2.find? pred := by
  rw [List.find?_append, h, Option.none_or]

theorem find?_map_comm {α : Type} (f : α → α) (pred : α → Bool)
    (hp : ∀ a, pred (f a) = pred a) (l : List α) :
    (l.map f).find? pred = (l.find? pred).map f := by
  induction l with
  | nil => simp
  | cons a as ih =>
    by_cases h : pred a = true
    · rw [List.map_cons, List.find?_cons_of_pos _ (by rw [hp]; exact h),
        List.find?_cons_of_pos _ h]
      rfl
    · rw [List.map_cons, List.find?_cons_of_neg _ (by rw [hp]; exact h),
        List.find?_cons_of_neg _ h, ih]

theorem get_or_create_messages (db : DB) (phone_number language : String) :
    (get_or_create_patient db phone_number language).2.messages = db.messages := by
  unfold get_or_create_patient
  cases h : findPatient db phone_number with
  | none => simp
  | some q =>
    by_cases hl : q.language ≠ language
    · simp [hl]
    · simp [hl]

theorem get_or_create_nextMessageId (db : DB) (phone_number language : String) :
    (get_or_create_patient db phone_number language).2.nextMessageId = db.nextMessageId := by
  unfold get_or_create_patient
  cases h : findPatient db phone_number with
  | none => simp
  | some q =>
    by_cases hl : q.language ≠ language
    · simp [hl]
    · simp [hl]

/-- The `Patient` row the create branch of `get_or_create_patient`
inserts. -/
def created_patient (db : DB) (phone_number language : String) : Patient :=
  { id := db.nextPatientId, phone_number := phone_number,
    name := none, language := language }

theorem get_or_create_of_none (db : DB) (phone_number language : String)
    (h : findPatient db phone_number = none) :
    get_or_create_patient db phone_number language =
      (created_patient db phone_number language,
       { db with patients := db.patients ++ [created_patient db phone_number language], nextPatientId := db.nextPatientId + 1 }) := by
  unfold get_or_create_patient
  rw [h]
  rfl

theorem findPatient_after_create (db : DB) (phone_number language : String)
    (h : findPatient db phone_number = none) :
    findPatient (get_or_create_patient db phone_number language).2 phone_number =
      some (created_patient db phone_number language) := by
  rw [get_or_create_of_none db phone_number language h]
  unfold findPatient at h ⊢
  rw [find?_append_of_none _ _ h]
  simp [List.find?, created_patient]

theorem findPatient_after_found (db : DB) (phone_number language : String) (q : Patient)
    (h : findPatient db phone_number = some q) :
    findPatient (get_or_create_patient db phone_number language).2 phone_number =
      some { q with language := language } := by
  have h' : db.patients.find? (fun p => p.phone_number == phone_number) = some q := h
  have hq : (q.phone_number == phone_number) = true := by
    simpa using List.find?_some h'
  unfold get_or_create_patient
  rw [h]
  by_cases hl : q.language ≠ language
  · simp only [if_pos hl]
    unfold findPatient
    rw [find?_map_comm _ _ ?hpred db.patients, h']
    case hpred =>
      intro a
      by_cases ha : (a.phone_number == phone_number) = true
      · simp [ha]
      · simp [ha]
    simp only [Option.map_some']
    rw [if_pos hq]
  · simp only [if_neg hl]
    push_neg at hl
    unfold findPatient
    rw [h']
    congr 1
    cases q
    simp_all

/-- The inbound `Message` row a turn appends (step 3 of
`process_message`). -/
def inbound_record (env : Env) (db : DB) (incoming_msg patient_phone : String) : Message :=
  let source_lang := detected_lang env incoming_msg
  let pdb := get_or_create_patient db patient_phone source_lang
  { id := pdb.2.nextMessageId, patient_id := some pdb.1.id,
    session_id := patient_phone, sender := "patient", content := incoming_msg,
    translated_content :=
      if source_lang ≠ "en" then some (processing_text env incoming_msg) else none,
    language := some source_lang }

/-- The outbound `Message` row a turn appends (step 7 of
`process_message`). -/
def outbound_record (env : Env) (db : DB) (incoming_msg patient_phone : String) : Message :=
  let source_lang := detected_lang env incoming_msg
  let pdb := get_or_create_patient db patient_phone source_lang
  { id := pdb.2.nextMessageId + 1, patient_id := some pdb.1.id,
    session_id := patient_phone, sender := "coordinator",
    content := turn_response env incoming_msg,
    translated_content :=
      if source_lang ≠ "en" then some (response_text_en (turn_intent env incoming_msg)) else none,
    language := some source_lang }

theorem process_message_result (env : Env) (db : DB) (incoming_msg patient_phone : String) :
    (process_message env db incoming_msg patient_phone).1 =
      { status := "processed", intent := turn_intent env incoming_msg,
        response := turn_response env incoming_msg } := rfl

theorem process_message_trace (env : Env) (db : DB) (incoming_msg patient_phone : String) :
    (process_message env db incoming_msg patient_phone).2.2 =
      [Event.logAppend (inbound_record env db incoming_msg patient_phone),
       Event.classifyCall (processing_text env incoming_msg),
       Event.sendCall patient_phone (turn_response env incoming_msg),
       Event.logAppend (outbound_record env db incoming_msg patient_phone)] := rfl

theorem process_message_messages (env : Env) (db : DB) (incoming_msg patient_phone : String) :
    (process_message env db incoming_msg patient_phone).2.1.messages =
      db.messages ++ [inbound_record env db incoming_msg patient_phone,
                      outbound_record env db incoming_msg patient_phone] := by
  show ((get_or_create_patient db patient_phone (detected_lang env incoming_msg)).2.messages
      ++ [inbound_record env db incoming_msg patient_phone])
      ++ [outbound_record env db incoming_msg patient_phone] = _
  rw [get_or_create_messages, List.append_assoc]
  rfl

theorem process_message_patients (env : Env) (db : DB) (incoming_msg patient_phone : String) :
    (process_message env db incoming_msg patient_phone).2.1.patients =
      (get_or_create_patient db patient_phone (detected_lang env incoming_msg)).2.patients := rfl

theorem findPatient_eq_of_patients (db1 db2 : DB) (phone_number : String)
    (h : db1.patients = db2.patients) :
    findPatient db1 phone_number = findPatient db2 phone_number := by
  unfold findPatient
  rw [h]

/-! ## Claims -/

/-- C1, counterexample: the claim says a recorded `translated_content`
is never equal to that record's original content; but when detection
reports Swahili and every translation call fails, the turn stores, on
both the inbound and the outbound record, a `translated_content` equal
to the record's own `content`. -/
theorem C1_counterexample :
    (process_message swFailEnv emptyDB "habari" "+254700000001").2.1.messages.length = 2 ∧
    (process_message swFailEnv emptyDB "habari" "+254700000001").2.1.messages.all
      (fun m => m.translated_content == some m.content) = true := by
  constructor
  · decide
  · decide

/-- C1 (amended): both records carry a `translated_content` exactly
when the turn's detected language differs from `"en"`; the inbound one
holds the processing text and the outbound one the English template,
so when the inbound translation did not happen (detection error or
translation failure) the stored `translated_content` equals the
record's own content — the code does not distinguish "no translation
needed" from "translation failed". -/
theorem C1_translated_content_amended (env : Env) (db : DB) (incoming_msg patient_phone : String) :
    ∃ mIn mOut,
      (process_message env db incoming_msg patient_phone).2.1.messages =
        db.messages ++ [mIn, mOut] ∧
      (mIn.translated_content.isSome ↔ detected_lang env incoming_msg ≠ "en") ∧
      (mOut.translated_content.isSome ↔ detected_lang env incoming_msg ≠ "en") ∧
      (detected_lang env incoming_msg ≠ "en" →
        mIn.translated_content = some (processing_text env incoming_msg) ∧
        mOut.translated_content = some (response_text_en (turn_intent env incoming_msg))) ∧
      (detected_lang env incoming_msg ≠ "en" →
        processing_text env incoming_msg = incoming_msg →
        mIn.translated_content = some mIn.content) := by
  refine ⟨inbound_record env db incoming_msg patient_phone,
    outbound_record env db incoming_msg patient_phone,
    process_message_messages env db incoming_msg patient_phone, ?_, ?_, ?_, ?_⟩
  · show (if detected_lang env incoming_msg ≠ "en"
        then some (processing_text env incoming_msg) else none).isSome ↔ _
    by_cases h : detected_lang env incoming_msg ≠ "en" <;> simp [h]
  · show (if detected_lang env incoming_msg ≠ "en"
        then some (response_text_en (turn_intent env incoming_msg)) else none).isSome ↔ _
    by_cases h : detected_lang env incoming_msg ≠ "en" <;> simp [h]
  · intro h
    constructor
    · show (if detected_lang env incoming_msg ≠ "en"
          then some (processing_text env incoming_msg) else none) = _
      rw [if_pos h]
    · show (if detected_lang env incoming_msg ≠ "en"
          then some (response_text_en (turn_intent env incoming_msg)) else none) = _
      rw [if_pos h]
  · intro h hp
    show (if detected_lang env incoming_msg ≠ "en"
        then some (processing_text env incoming_msg) else none) = some incoming_msg
    rw [if_pos h, hp]

/-- C2, counterexample: the claim says `classify` always returns a
label from the closed intent set; but when the LLM chain answers with
an arbitrary string, `classify_intent` returns it stripped and
lowercased without restricting it to the vocabulary. -/
theorem C2_counterexample :
    classify_intent (some fun _ => LLMOutcome.ok " BANANA ") "hello" = "banana" ∧
    "banana" ∉ intent_labels := by
  constructor
  · decide
  · decide

/-- C2 (amended): `classify_intent` is a total function (it never
raises); when the LLM chain is unconfigured the keyword fallback only
returns labels of the closed set, and when the chain raises the
result is `"unclear"` — but a successful chain response is returned
as-is (stripped, lowercased), not restricted to the closed set. -/
theorem C2_classify_amended (llm_chain : Option (String → LLMOutcome)) (message : String) :
    (llm_chain = none → classify_intent llm_chain message ∈ intent_labels) ∧
    (∀ run m, llm_chain = some run → run message = LLMOutcome.raises m →
      classify_intent llm_chain message = "unclear") ∧
    (∀ run r, llm_chain = some run → run message = LLMOutcome.ok r →
      classify_intent llm_chain message = pyLower (pyStrip r)) := by
  refine ⟨?_, ?_, ?_⟩
  · intro h
    subst h
    simp only [classify_intent]
    split
    · decide
    split
    · decide
    · decide
  · intro run m hrun hm
    subst hrun
    simp [classify_intent, hm]
  · intro run r hrun hr
    subst hrun
    simp [classify_intent, hr]

/-- C3: if the language service errors on every call during a turn
(detection returns an error dict, every translation call raises),
`process_message` still completes with status `"processed"`, returns a
non-empty response, returns the intent classified from the original
inbound text, and the processing text used for classification equals
the original inbound text. -/
theorem C3_language_failure_degrades (env : Env) (db : DB) (incoming_msg patient_phone : String)
    (hdeterr : (env.detect incoming_msg).error.isSome)
    (htr : ∀ t d, ∃ m, env.backend t d = TransOutcome.raises m) :
    (process_message env db incoming_msg patient_phone).1.status = "processed" ∧
    (process_message env db incoming_msg patient_phone).1.response ≠ "" ∧
    (process_message env db incoming_msg patient_phone).1.intent =
      classify_intent env.llm_chain incoming_msg ∧
    processing_text env incoming_msg = incoming_msg ∧
    Event.classifyCall incoming_msg ∈ (process_message env db incoming_msg patient_phone).2.2 := by
  have herrne : ¬ (env.detect incoming_msg).error = none := by
    intro he
    rw [he] at hdeterr
    simp at hdeterr
  have hproc : processing_text env incoming_msg = incoming_msg := by
    unfold processing_text
    rw [if_neg (fun hc => herrne hc.2)]
  have hresp : ∀ intent : String,
      (if detected_lang env incoming_msg ≠ "en" then
        let translation_back := translate_text env.backend
          (PyText.str (response_text_en intent)) (detected_lang env incoming_msg) "auto"
        if translation_back.error = none then
          translation_back.translated_text.getD (response_text_en intent)
        else response_text_en intent
      else response_text_en intent) = response_text_en intent := by
    intro intent
    by_cases hl : detected_lang env incoming_msg ≠ "en"
    · rw [if_pos hl]
      have := translate_text_error_of_raising env.backend htr (response_text_en intent)
        (detected_lang env incoming_msg) "auto"
      rw [if_neg (by intro he; rw [he] at this; simp at this)]
    · rw [if_neg hl]
  refine ⟨rfl, ?_, ?_, hproc, ?_⟩
  · show turn_response env incoming_msg ≠ ""
    unfold turn_response
    rw [hresp]
    exact response_text_en_ne_empty _
  · show turn_intent env incoming_msg = _
    unfold turn_intent
    rw [hproc]
  · rw [process_message_trace, hproc]
    simp

/-- C3 witness: the always-erroring environment at `"hello"`,
`"+100"`. -/
theorem C3_language_failure_witness :
    (process_message allErrEnv emptyDB "hello" "+100").1.status = "processed" ∧
    (process_message allErrEnv emptyDB "hello" "+100").1.response ≠ "" ∧
    (process_message allErrEnv emptyDB "hello" "+100").1.intent =
      classify_intent allErrEnv.llm_chain "hello" ∧
    processing_text allErrEnv "hello" = "hello" ∧
    Event.classifyCall "hello" ∈ (process_message allErrEnv emptyDB "hello" "+100").2.2 :=
  C3_language_failure_degrades allErrEnv emptyDB "hello" "+100" (by decide)
    (fun t d => ⟨"translation failed", rfl⟩)

/-- C4: every turn appends exactly two new `Message` rows, the
inbound one (sender `patient`) before the outbound one (sender
`coordinator`), both with `session_id` equal to the patient's phone
number and both tagged with the turn's detected language; and the
trace shows the inbound append preceding the classification call,
which precedes the outbound append. -/
theorem C4_transcript_pairing (env : Env) (db : DB) (incoming_msg patient_phone : String) :
    ∃ mIn mOut,
      (process_message env db incoming_msg patient_phone).2.1.messages =
        db.messages ++ [mIn, mOut] ∧
      mIn.sender = "patient" ∧ mOut.sender = "coordinator" ∧
      mIn.session_id = patient_phone ∧ mOut.session_id = patient_phone ∧
      mIn.language = some (detected_lang env incoming_msg) ∧
      mOut.language = some (detected_lang env incoming_msg) ∧
      (process_message env db incoming_msg patient_phone).2.2 =
        [Event.logAppend mIn, Event.classifyCall (processing_text env incoming_msg),
         Event.sendCall patient_phone (turn_response env incoming_msg),
         Event.logAppend mOut] :=
  ⟨inbound_record env db incoming_msg patient_phone,
   outbound_record env db incoming_msg patient_phone,
   process_message_messages env db incoming_msg patient_phone,
   rfl, rfl, rfl, rfl, rfl, rfl,
   process_message_trace env db incoming_msg patient_phone⟩

/-- C5: when the turn's detected language differs from `"en"`, the
outbound response is the template translated to that language when
the translation succeeds, and exactly the canonical English template
when it fails; in either case it is non-empty, and the dispatched
body equals the returned response. -/
theorem C5_relocalization_fallback (env : Env) (db : DB) (incoming_msg patient_phone : String)
    (h : detected_lang env incoming_msg ≠ "en") :
    ((translate_text env.backend (PyText.str (response_text_en (turn_intent env incoming_msg)))
        (detected_lang env incoming_msg) "auto").error = none →
      (process_message env db incoming_msg patient_phone).1.response =
        (translate_text env.backend (PyText.str (response_text_en (turn_intent env incoming_msg)))
          (detected_lang env incoming_msg) "auto").translated_text.getD
            (response_text_en (turn_intent env incoming_msg))) ∧
    ((translate_text env.backend (PyText.str (response_text_en (turn_intent env incoming_msg)))
        (detected_lang env incoming_msg) "auto").error ≠ none →
      (process_message env db incoming_msg patient_phone).1.response =
        response_text_en (turn_intent env incoming_msg)) ∧
    (process_message env db incoming_msg patient_phone).1.response ≠ "" ∧
    Event.sendCall patient_phone ((process_message env db incoming_msg patient_phone).1.response) ∈
      (process_message env db incoming_msg patient_phone).2.2 := by
  have hshow : (process_message env db incoming_msg patient_phone).1.response =
      turn_response env incoming_msg := rfl
  have hturn : turn_response env incoming_msg =
      (if (translate_text env.backend (PyText.str (response_text_en (turn_intent env incoming_msg)))
            (detected_lang env incoming_msg) "auto").error = none then
        (translate_text env.backend (PyText.str (response_text_en (turn_intent env incoming_msg)))
          (detected_lang env incoming_msg) "auto").translated_text.getD
            (response_text_en (turn_intent env incoming_msg))
      else response_text_en (turn_intent env incoming_msg)) := by
    unfold turn_response
    rw [if_pos h]
  refine ⟨?_, ?_, ?_, ?_⟩
  · intro herr
    rw [hshow, hturn, if_pos herr]
  · intro herr
    rw [hshow, hturn, if_neg herr]
  · rw [hshow, hturn]
    by_cases herr : (translate_text env.backend
        (PyText.str (response_text_en (turn_intent env incoming_msg)))
        (detected_lang env incoming_msg) "auto").error = none
    · rw [if_pos herr]
      obtain ⟨t, ht, htne⟩ := translate_text_error_none_has_text env.backend
        (PyText.str (response_text_en (turn_intent env incoming_msg)))
        (detected_lang env incoming_msg) "auto" herr
      rw [ht]
      simpa using htne
    · rw [if_neg herr]
      exact response_text_en_ne_empty _
  · rw [process_message_trace, hshow]
    simp

/-- C5 witness: detection reports Swahili, the re-localization call
fails, and the returned response is the (non-empty) English greeting
template. -/
theorem C5_relocalization_witness :
    ((translate_text swFailEnv.backend (PyText.str (response_text_en (turn_intent swFailEnv "habari")))
        (detected_lang swFailEnv "habari") "auto").error = none →
      (process_message swFailEnv emptyDB "habari" "+254700000001").1.response =
        (translate_text swFailEnv.backend (PyText.str (response_text_en (turn_intent swFailEnv "habari")))
          (detected_lang swFailEnv "habari") "auto").translated_text.getD
            (response_text_en (turn_intent swFailEnv "habari"))) ∧
    ((translate_text swFailEnv.backend (PyText.str (response_text_en (turn_intent swFailEnv "habari")))
        (detected_lang swFailEnv "habari") "auto").error ≠ none →
      (process_message swFailEnv emptyDB "habari" "+254700000001").1.response =
        response_text_en (turn_intent swFailEnv "habari")) ∧
    (process_message swFailEnv emptyDB "habari" "+254700000001").1.response ≠ "" ∧
    Event.sendCall "+254700000001"
        ((process_message swFailEnv emptyDB "habari" "+254700000001").1.response) ∈
      (process_message swFailEnv emptyDB "habari" "+254700000001").2.2 :=
  C5_relocalization_fallback swFailEnv emptyDB "habari" "+254700000001" (by decide)

/-- C6: a patient first created on a turn whose detected language is A
who then sends a message detected as B ≠ A ends, after that second
turn, with stored language B. -/
theorem C6_language_drift (env : Env) (db : DB) (msg1 msg2 patient_phone A B : String)
    (habsent : findPatient db patient_phone = none)
    (hA : detected_lang env msg1 = A)
    (hB : detected_lang env msg2 = B)
    (_hne : B ≠ A) :
    ∃ p, findPatient
        (process_message env (process_message env db msg1 patient_phone).2.1
          msg2 patient_phone).2.1 patient_phone = some p ∧
      p.language = B := by
  have h1 : findPatient (process_message env db msg1 patient_phone).2.1 patient_phone =
      some (created_patient db patient_phone A) := by
    rw [findPatient_eq_of_patients _ _ _ (process_message_patients env db msg1 patient_phone),
      hA]
    exact findPatient_after_create db patient_phone A habsent
  refine ⟨{ created_patient db patient_phone A with language := B }, ?_, rfl⟩
  rw [findPatient_eq_of_patients _ _ _
    (process_message_patients env (process_message env db msg1 patient_phone).2.1 msg2 patient_phone), hB]
  exact findPatient_after_found _ patient_phone B _ h1

/-- C6 witness: a patient created with detected language `"sw"` on the
first turn ends with stored language `"fr"` after a second turn
detected as `"fr"`. -/
theorem C6_language_drift_witness :
    ∃ p, findPatient
        (process_message driftEnv (process_message driftEnv emptyDB "moja" "+100").2.1
          "deux" "+100").2.1 "+100" = some p ∧
      p.language = "fr" :=
  C6_language_drift driftEnv emptyDB "moja" "deux" "+100" "sw" "fr" rfl rfl rfl (by decide)

/-- C7: get-or-create is idempotent on an absent phone number: the two
calls (same number, same language) return the same patient id, the
first call adds exactly one row, and the second call changes nothing. -/
theorem C7_get_or_create_idempotent (db : DB) (phone_number language : String)
    (h : findPatient db phone_number = none) :
    (get_or_create_patient db phone_number language).1.id =
      (get_or_create_patient (get_or_create_patient db phone_number language).2
        phone_number language).1.id ∧
    (get_or_create_patient db phone_number language).2.patients.length =
      db.patients.length + 1 ∧
    (get_or_create_patient (get_or_create_patient db phone_number language).2
        phone_number language).2 =
      (get_or_create_patient db phone_number language).2 := by
  have h1 := get_or_create_of_none db phone_number language h
  have h2 := findPatient_after_create db phone_number language h
  have h3 : get_or_create_patient (get_or_create_patient db phone_number language).2
      phone_number language =
      (created_patient db phone_number language,
       (get_or_create_patient db phone_number language).2) := by
    generalize hdb1 : (get_or_create_patient db phone_number language).2 = db1 at h2 ⊢
    unfold get_or_create_patient
    simp only [h2]
    rw [if_neg (by simp [created_patient])]
  refine ⟨?_, ?_, ?_⟩
  · rw [h3, h1]
  · rw [h1]
    simp
  · rw [h3]

/-- C7 witness: the empty database at a fresh phone number. -/
theorem C7_idempotent_witness :
    (get_or_create_patient emptyDB "+100" "en").1.id =
      (get_or_create_patient (get_or_create_patient emptyDB "+100" "en").2
        "+100" "en").1.id ∧
    (get_or_create_patient emptyDB "+100" "en").2.patients.length =
      emptyDB.patients.length + 1 ∧
    (get_or_create_patient (get_or_create_patient emptyDB "+100" "en").2
        "+100" "en").2 =
      (get_or_create_patient emptyDB "+100" "en").2 :=
  C7_get_or_create_idempotent emptyDB "+100" "en" (by decide)

/-- C8: messaging-dispatch failure never blocks the outbound log:
`send_whatsapp_message` returns the fixed error string when the client
is unconfigured and an `"Error: ..."` string when the send raises
(never raising itself), the database outcome of a turn is the same
whatever the transport does, and the outbound row is appended on
every turn. -/
theorem C8_dispatch_never_blocks_logging (env : Env) (db : DB) (incoming_msg patient_phone : String) :
    (env.twilio.clientInitialized = false →
      ∀ to_number body, send_whatsapp_message env.twilio to_number body =
        "Twilio client is not initialized. Cannot send message.") ∧
    (∀ to_number body m, env.twilio.clientInitialized = true →
      env.twilio.create (if strStartsWith to_number "whatsapp:" then to_number
        else "whatsapp:" ++ to_number) body = SendOutcome.raises m →
      send_whatsapp_message env.twilio to_number body = "Error: " ++ m) ∧
    (∀ tw : TwilioEnv,
      (process_message { env with twilio := tw } db incoming_msg patient_phone).2.1 =
        (process_message env db incoming_msg patient_phone).2.1) ∧
    ∃ mIn mOut,
      (process_message env db incoming_msg patient_phone).2.1.messages =
        db.messages ++ [mIn, mOut] ∧ mOut.sender = "coordinator" := by
  refine ⟨?_, ?_, fun tw => rfl,
    ⟨inbound_record env db incoming_msg patient_phone,
     outbound_record env db incoming_msg patient_phone,
     process_message_messages env db incoming_msg patient_phone, rfl⟩⟩
  · intro h to_number body
    unfold send_whatsapp_message
    rw [if_pos h]
  · intro to_number body m h hm
    unfold send_whatsapp_message
    rw [if_neg (by rw [h]; simp)]
    simp only [hm]

/-- C9: `translate_text` is total: it always returns a dict; empty and
non-string inputs yield a dict with an error entry, and every result
either carries an error entry or a non-empty translated text. -/
theorem C9_translate_text_total (backend : String → String → TransOutcome)
    (dest_lang source_lang : String) :
    (translate_text backend (PyText.str "") dest_lang source_lang).error.isSome ∧
    (translate_text backend PyText.nonStr dest_lang source_lang).error.isSome ∧
    ∀ text : PyText,
      (translate_text backend text dest_lang source_lang).error.isSome ∨
      ((translate_text backend text dest_lang source_lang).error = none ∧
       ∃ t, (translate_text backend text dest_lang source_lang).translated_text = some t ∧
         t ≠ "") := by
  refine ⟨by simp [translate_text], by simp [translate_text], ?_⟩
  intro text
  by_cases herr : (translate_text backend text dest_lang source_lang).error = none
  · exact Or.inr ⟨herr, translate_text_error_none_has_text backend text dest_lang source_lang herr⟩
  · left
    exact Option.isSome_iff_ne_none.mpr herr

/-- C10: when detection returns a dict without a `language` key, the
turn proceeds with detected language `"en"`: the processing text is
the untranslated input, both appended rows are tagged `"en"` with no
`translated_content`, and an existing patient's stored language is
overwritten to `"en"`. -/
theorem C10_missing_language_defaults_en (env : Env) (db : DB) (incoming_msg patient_phone : String)
    (hdet : (env.detect incoming_msg).language = none) :
    detected_lang env incoming_msg = "en" ∧
    processing_text env incoming_msg = incoming_msg ∧
    (∃ mIn mOut,
      (process_message env db incoming_msg patient_phone).2.1.messages =
        db.messages ++ [mIn, mOut] ∧
      mIn.language = some "en" ∧ mOut.language = some "en" ∧
      mIn.translated_content = none ∧ mOut.translated_content = none) ∧
    (∀ q, findPatient db patient_phone = some q →
      findPatient (process_message env db incoming_msg patient_phone).2.1 patient_phone =
        some { q with language := "en" }) := by
  have hlang : detected_lang env incoming_msg = "en" := by
    unfold detected_lang
    rw [hdet]
    rfl
  have hnotne : ¬ detected_lang env incoming_msg ≠ "en" := fun hc => hc hlang
  have hproc : processing_text env incoming_msg = incoming_msg := by
    unfold processing_text
    rw [if_neg (fun hc => absurd hlang hc.1)]
  refine ⟨hlang, hproc, ?_, ?_⟩
  · refine ⟨inbound_record env db incoming_msg patient_phone,
      outbound_record env db incoming_msg patient_phone,
      process_message_messages env db incoming_msg patient_phone, ?_, ?_, ?_, ?_⟩
    · show some (detected_lang env incoming_msg) = some "en"
      rw [hlang]
    · show some (detected_lang env incoming_msg) = some "en"
      rw [hlang]
    · show (if detected_lang env incoming_msg ≠ "en"
          then some (processing_text env incoming_msg) else none) = none
      rw [if_neg hnotne]
    · show (if detected_lang env incoming_msg ≠ "en"
          then some (response_text_en (turn_intent env incoming_msg)) else none) = none
      rw [if_neg hnotne]
  · intro q hq
    rw [findPatient_eq_of_patients _ _ _
      (process_message_patients env db incoming_msg patient_phone), hlang]
    exact findPatient_after_found db patient_phone "en" q hq

/-- C10 witness: an erroring detector and an existing patient stored
with language `"sw"`: the turn retags everything `"en"`. -/
theorem C10_missing_language_witness :
    detected_lang allErrEnv "hi" = "en" ∧
    processing_text allErrEnv "hi" = "hi" ∧
    (∃ mIn mOut,
      (process_message allErrEnv swPatientDB "hi" "+254700000001").2.1.messages =
        swPatientDB.messages ++ [mIn, mOut] ∧
      mIn.language = some "en" ∧ mOut.language = some "en" ∧
      mIn.translated_content = none ∧ mOut.translated_content = none) ∧
    (∀ q, findPatient swPatientDB "+254700000001" = some q →
      findPatient (process_message allErrEnv swPatientDB "hi" "+254700000001").2.1
        "+254700000001" = some { q with language := "en" }) :=
  C10_missing_language_defaults_en allErrEnv swPatientDB "hi" "+254700000001" rfl

end HealthBridge
